import Mathlib

/-!
Verification of the `ReduceParams` descriptor from
`src/include/flexflow/ops/reduce_params.h`: axis validation against a
parallel tensor shape, structural equality, and the hash used when the
descriptor serves as a cache key.

The visible header declares `ReduceParams` (fields `axes : std::vector<int>`
and `keepdims : bool`) together with `is_valid`, `operator==` and
`std::hash<ReduceParams>`; the bodies of those three operations and the
definition of `ParallelTensorShape` live in translation units that are not
among the visible sources, so they are modelled here from the specification.
-/

namespace FlexFlow

/-- Modelled from the spec: one dimension of a parallel tensor shape, from
`flexflow/parallel_tensor.h` (not among the visible sources). Per the spec a
dimension carries a logical size and a partition (sharding) degree. -/
structure ParallelDim where
  size : Int
  degree : Int
deriving DecidableEq, Repr

/-- Modelled from the spec: `ParallelTensorShape`, from
`flexflow/parallel_tensor.h` (not among the visible sources). Per the spec it
is an ordered sequence of dimension descriptors, and it exposes which
dimension index is the runtime-reserved partition/replica axis (the spec's
`shape.reserved_axis_index()` query). -/
structure ParallelTensorShape where
  dims : List ParallelDim
  reserved_dim : Nat
deriving DecidableEq, Repr

/-- Number of dimensions of the shape: the length of its dimension list. -/
def ParallelTensorShape.num_dims (s : ParallelTensorShape) : Nat :=
  s.dims.length

/-- The reduction-operator parameter descriptor, from
`src/include/flexflow/ops/reduce_params.h`: an ordered sequence of axis
indices (`std::vector<int>`) and a `keepdims` flag. -/
structure ReduceParams where
  axes : List Int
  keepdims : Bool
deriving DecidableEq, Repr

/-- Modelled from the spec: the body of `ReduceParams::is_valid` is not among
the visible sources (the header only declares it). Per the spec it returns
`true` iff every index in `axes` lies in `[0, num_dims)`, no index repeats,
and no index equals the shape's reserved partition/replica dimension index.
It reads only `axes`, never `keepdims`. -/
def ReduceParams.is_valid (p : ReduceParams) (shape : ParallelTensorShape) :
    Bool :=
  (p.axes.all fun a =>
    decide (0 ≤ a) && decide (a < (shape.num_dims : Int)) &&
      (a != (shape.reserved_dim : Int))) &&
  decide p.axes.Nodup

/-- Modelled from the spec: the body of `operator==` on `ReduceParams` is not
among the visible sources. Per the spec two descriptors are equal iff the
`keepdims` flags match and the `axes` sequences are equal element-by-element
in order, with no canonicalization. -/
def ReduceParams.equals (a b : ReduceParams) : Bool :=
  a.axes == b.axes && a.keepdims == b.keepdims

/-- One step of an order-sensitive sequence-hash combiner (the spec's
"iteratively combine a seed with each element using a well-mixing combining
function"), on 64-bit unsigned arithmetic. -/
def hashCombine (seed v : Nat) : Nat :=
  (seed ^^^ ((v + 2654435769 + (seed * 64) % 2 ^ 64 + seed / 4) % 2 ^ 64)) %
    2 ^ 64

/-- Hash of one `int` axis value as a 64-bit unsigned integer. -/
def intHash (a : Int) : Nat :=
  (a.emod (2 ^ 64)).toNat

/-- Modelled from the spec: the body of
`std::hash<FlexFlow::ReduceParams>::operator()` is not among the visible
sources. Per the spec it folds each element of `axes` into an accumulator in
sequence order with a mixing combiner and then folds in `keepdims`, yielding
a fixed-width (64-bit) unsigned integer. -/
def ReduceParams.hash (p : ReduceParams) : Nat :=
  hashCombine (p.axes.foldl (fun acc a => hashCombine acc (intHash a)) 0)
    (if p.keepdims then 1 else 0)

/-- The concrete shape of the spec's scenario: dimensions
`[(size=8, degree=2), (size=16, degree=1), (size=4, degree=1)]` with the
reserved partition/replica dimension at index 0. -/
def exampleShape : ParallelTensorShape :=
  ⟨[⟨8, 2⟩, ⟨16, 1⟩, ⟨4, 1⟩], 0⟩

/-- Unfolding lemma: `is_valid` holds iff every axis is in range, the axis
list has no duplicate, and no axis equals the reserved dimension index. -/
theorem is_valid_eq_true (p : ReduceParams) (shape : ParallelTensorShape) :
    p.is_valid shape = true ↔
      ((∀ a ∈ p.axes, 0 ≤ a ∧ a < (shape.num_dims : Int)) ∧
        p.axes.Nodup ∧ ∀ a ∈ p.axes, a ≠ (shape.reserved_dim : Int)) := by
  unfold ReduceParams.is_valid
  simp only [Bool.and_eq_true, List.all_eq_true, decide_eq_true_eq,
    bne_iff_ne, ne_eq]
  constructor
  · rintro ⟨hall, hnd⟩
    exact ⟨fun a ha => ⟨(hall a ha).1.1, (hall a ha).1.2⟩, hnd,
      fun a ha => (hall a ha).2⟩
  · rintro ⟨hrange, hnd, hne⟩
    exact ⟨fun a ha => ⟨⟨(hrange a ha).1, (hrange a ha).2⟩, hne a ha⟩, hnd⟩

/-- Unfolding lemma: `equals` holds iff the `axes` lists are equal and the
`keepdims` flags are equal. -/
theorem equals_eq_true (a b : ReduceParams) :
    a.equals b = true ↔ a.axes = b.axes ∧ a.keepdims = b.keepdims := by
  unfold ReduceParams.equals
  simp [Bool.and_eq_true]

/-- C1: for every `ParallelTensorShape` and `ReduceParams`, `is_valid`
returns `true` iff every index in `axes` is in `[0, num_dims)`, no index
occurs twice, and no index equals the reserved partition/replica dimension
index; in particular empty `axes` is valid, and `axes` covering every
non-reserved dimension is valid. -/
theorem is_valid_characterization :
    (∀ (p : ReduceParams) (shape : ParallelTensorShape),
      p.is_valid shape = true ↔
        ((∀ a ∈ p.axes, 0 ≤ a ∧ a < (shape.num_dims : Int)) ∧
          p.axes.Nodup ∧ ∀ a ∈ p.axes, a ≠ (shape.reserved_dim : Int))) ∧
    (∀ (shape : ParallelTensorShape) (k : Bool),
      (ReduceParams.mk [] k).is_valid shape = true) ∧
    (∀ (shape : ParallelTensorShape) (k : Bool),
      (ReduceParams.mk
        (List.map Int.ofNat
          ((List.range shape.num_dims).filter
            fun i => i != shape.reserved_dim))
        k).is_valid shape = true) := by
  refine ⟨is_valid_eq_true, ?_, ?_⟩
  · intro shape k
    rw [is_valid_eq_true]
    simp
  · intro shape k
    rw [is_valid_eq_true]
    refine ⟨?_, ?_, ?_⟩
    · intro a ha
      simp only [List.mem_map, List.mem_filter, List.mem_range] at ha
      obtain ⟨i, ⟨hi, _⟩, rfl⟩ := ha
      refine ⟨Int.ofNat_nonneg i, ?_⟩
      rw [Int.ofNat_eq_natCast]
      exact_mod_cast hi
    · refine List.Nodup.map ?_ ((List.nodup_range _).filter _)
      intro x y hxy
      exact Int.ofNat.inj hxy
    · intro a ha
      simp only [List.mem_map, List.mem_filter, List.mem_range,
        bne_iff_ne, ne_eq] at ha
      obtain ⟨i, ⟨_, hir⟩, rfl⟩ := ha
      intro hcontra
      rw [Int.ofNat_eq_natCast] at hcontra
      exact hir (by exact_mod_cast hcontra)

/-- C2: whenever `equals a b` returns `true`, `hash a` equals `hash b`. -/
theorem equals_implies_hash_eq (a b : ReduceParams)
    (h : a.equals b = true) : a.hash = b.hash := by
  rw [equals_eq_true] at h
  unfold ReduceParams.hash
  rw [h.1, h.2]

/-- Witness for C2 at a concrete pair of equal descriptors. -/
theorem equals_implies_hash_eq_witness :
    (ReduceParams.mk [1, 2] true).hash = (ReduceParams.mk [1, 2] true).hash :=
  equals_implies_hash_eq (ReduceParams.mk [1, 2] true)
    (ReduceParams.mk [1, 2] true) (by decide)

/-- C3: `equals a b` returns `true` iff `a.keepdims = b.keepdims` and the
`axes` sequences are equal element-by-element in order (plain list equality:
same length, same values at the same positions), with no canonicalization. -/
theorem equals_characterization (a b : ReduceParams) :
    a.equals b = true ↔ (a.keepdims = b.keepdims ∧ a.axes = b.axes) := by
  rw [equals_eq_true]
  tauto

/-- C4: on the concrete three-dimensional shape
`[(8, part 2) at reserved index 0, (16, part 1), (4, part 1)]`,
`axes=[1,2]` is valid, `axes=[0,1]` is invalid (axis 0 is the reserved
partitioned dimension), and `axes=[1,1]` is invalid (duplicate axis). -/
theorem concrete_scenario :
    (ReduceParams.mk [1, 2] true).is_valid exampleShape = true ∧
    (ReduceParams.mk [0, 1] true).is_valid exampleShape = false ∧
    (ReduceParams.mk [1, 1] false).is_valid exampleShape = false := by
  decide

/-- C5: `axes=[0,1]` and `axes=[1,0]` (both with `keepdims=false`) are not
equal under `equals`: equality is sensitive to the order of the axes. -/
theorem equals_order_sensitive :
    (ReduceParams.mk [0, 1] false).equals (ReduceParams.mk [1, 0] false) =
      false := by
  decide

/-- C6: `hash` is a deterministic function of `axes` and `keepdims` alone:
two descriptors with the same axes sequence and the same flag hash to the
same fixed-width (64-bit) unsigned integer. -/
theorem hash_deterministic (p q : ReduceParams)
    (haxes : p.axes = q.axes) (hk : p.keepdims = q.keepdims) :
    p.hash = q.hash ∧ p.hash < 2 ^ 64 := by
  constructor
  · unfold ReduceParams.hash
    rw [haxes, hk]
  · unfold ReduceParams.hash hashCombine
    exact Nat.mod_lt _ (by norm_num)

/-- Witness for C6 at two concretely built descriptors with the same axes
sequence and flag. -/
theorem hash_deterministic_witness :
    (ReduceParams.mk [3, 0] false).hash = (ReduceParams.mk [3, 0] false).hash ∧
    (ReduceParams.mk [3, 0] false).hash < 2 ^ 64 :=
  hash_deterministic (ReduceParams.mk [3, 0] false)
    (ReduceParams.mk [3, 0] false) rfl rfl

/-- C7: none of the three operations fails: `is_valid` always returns one of
the two booleans, `equals` always returns one of the two booleans, `hash`
always returns a 64-bit unsigned integer, and malformed `axes`
(an out-of-range index, or a duplicate index) make `is_valid` return `false`
rather than signal an error. -/
theorem operations_total_no_failure :
    (∀ (p : ReduceParams) (shape : ParallelTensorShape),
      p.is_valid shape = true ∨ p.is_valid shape = false) ∧
    (∀ a b : ReduceParams, a.equals b = true ∨ a.equals b = false) ∧
    (∀ p : ReduceParams, p.hash < 2 ^ 64) ∧
    (∀ (p : ReduceParams) (shape : ParallelTensorShape) (a : Int),
      a ∈ p.axes → (a < 0 ∨ (shape.num_dims : Int) ≤ a) →
        p.is_valid shape = false) ∧
    (∀ (p : ReduceParams) (shape : ParallelTensorShape),
      ¬ p.axes.Nodup → p.is_valid shape = false) := by
  refine ⟨?_, ?_, ?_, ?_, ?_⟩
  · intro p shape
    cases hv : p.is_valid shape
    · exact Or.inr rfl
    · exact Or.inl rfl
  · intro a b
    cases hv : a.equals b
    · exact Or.inr rfl
    · exact Or.inl rfl
  · intro p
    unfold ReduceParams.hash hashCombine
    exact Nat.mod_lt _ (by norm_num)
  · intro p shape a ha hbad
    cases hv : p.is_valid shape
    · rfl
    · exfalso
      have h := (is_valid_eq_true p shape).mp hv
      have hr := h.1 a ha
      rcases hbad with hneg | hbig
      · exact absurd hr.1 (not_le.mpr hneg)
      · exact absurd hr.2 (not_lt.mpr hbig)
  · intro p shape hnd
    cases hv : p.is_valid shape
    · rfl
    · exact absurd ((is_valid_eq_true p shape).mp hv).2.1 hnd

/-- Witness for C7: the malformed-axes conjuncts applied at concrete inputs —
an out-of-range axis and a duplicated axis each yield `false`. -/
theorem operations_total_no_failure_witness :
    (ReduceParams.mk [5] false).is_valid exampleShape = false ∧
    (ReduceParams.mk [2, 2] false).is_valid exampleShape = false :=
  ⟨operations_total_no_failure.2.2.2.1 (ReduceParams.mk [5] false)
      exampleShape 5 (by decide) (by decide),
    operations_total_no_failure.2.2.2.2 (ReduceParams.mk [2, 2] false)
      exampleShape (by decide)⟩

/-- C8: `equals` is an equivalence relation on `ReduceParams` values:
reflexive, symmetric and transitive. -/
theorem equals_equivalence :
    (∀ a : ReduceParams, a.equals a = true) ∧
    (∀ a b : ReduceParams, a.equals b = true → b.equals a = true) ∧
    (∀ a b c : ReduceParams,
      a.equals b = true → b.equals c = true → a.equals c = true) := by
  refine ⟨?_, ?_, ?_⟩
  · intro a
    rw [equals_eq_true]
    exact ⟨rfl, rfl⟩
  · intro a b h
    rw [equals_eq_true] at h ⊢
    exact ⟨h.1.symm, h.2.symm⟩
  · intro a b c hab hbc
    rw [equals_eq_true] at hab hbc ⊢
    exact ⟨hab.1.trans hbc.1, hab.2.trans hbc.2⟩

/-- Witness for C8: symmetry and transitivity applied at concrete
descriptors. -/
theorem equals_equivalence_witness :
    (ReduceParams.mk [4] true).equals (ReduceParams.mk [4] true) = true ∧
    (ReduceParams.mk [4, 2] false).equals (ReduceParams.mk [4, 2] false) =
      true :=
  ⟨equals_equivalence.2.1 (ReduceParams.mk [4] true)
      (ReduceParams.mk [4] true) (by decide),
    equals_equivalence.2.2 (ReduceParams.mk [4, 2] false)
      (ReduceParams.mk [4, 2] false) (ReduceParams.mk [4, 2] false)
      (by decide) (by decide)⟩

/-- C10: the result of `is_valid` does not depend on the `keepdims` flag:
for every shape and axes sequence, the descriptor with `keepdims = true` and
the one with `keepdims = false` validate identically. -/
theorem is_valid_ignores_keepdims (axes : List Int)
    (shape : ParallelTensorShape) :
    (ReduceParams.mk axes true).is_valid shape =
      (ReduceParams.mk axes false).is_valid shape :=
  rfl

end FlexFlow
